import Mathlib

/-!
Shallow embedding of the RoamFree travel app front end, covering the pieces the
specification makes behavioral claims about:

* `src/src/components/location-search.tsx` — the debounced location-search
  controller (`debounce`, `fetchLocations`, `handleInputChange`,
  `handleResultClick`, `clearSearch`, and the `initialSearchTerm` sync effect),
  modeled as an explicit event-driven state machine `Machine` with a `step`
  function.  Network requests and toast notifications are recorded in logs so
  that "a request was issued" and "a toast was emitted" are observable.
* `src/src/app/page.tsx` — the selection state (`handleLocationSelect`, the
  bootstrap `useEffect` guarded by `initialSearchDone`).
* the `LocationDetails` component (weather-fetch guard and the
  incomplete-location alert) and `src/src/components/interactive-map.tsx`
  (coordinate fallback and the no-location overlay).

JavaScript runtime details that matter to the claims are modeled explicitly:
a JS `number`-or-`undefined` field is `Option ℚ` (with `none` standing for
`undefined` or `NaN`, which behave identically under the truthiness guards the
code uses), string falsiness is emptiness, and `||` on strings falls through on
the empty string.
-/

namespace RoamFree

/-- Strip leading and trailing whitespace from a character list (helper for the
JS `trim` model; structurally recursive so concrete traces evaluate in the
kernel). -/
def trimChars (cs : List Char) : List Char :=
  ((cs.dropWhile Char.isWhitespace).reverse.dropWhile Char.isWhitespace).reverse

/-- Model of the JavaScript string `trim` method (used as `query.trim()` and
`newSearchTerm.trim()` in `location-search.tsx`). -/
def jsTrim (s : String) : String := ⟨trimChars s.data⟩

/-- Split a character list on a separator character, keeping empty segments —
the behavior of the JS `split` method (helper for `display_name.split(',')`
and for the `parseFloat` model). -/
def splitOnChar (sep : Char) : List Char → List (List Char)
  | [] => [[]]
  | c :: rest =>
    match splitOnChar sep rest with
    | [] => [[]]
    | g :: gs => if c = sep then [] :: g :: gs else (c :: g) :: gs

/-- Model of the JavaScript `a || b` idiom on strings, as used in
`handleResultClick` (`location.fullName || location.name`): the left operand is
used only when it is truthy, i.e. present and non-empty. -/
def jsOrStr : Option String → String → String
  | some s, d => if s = "" then d else s
  | none, d => d

/-- JS truthiness of an optional numeric field: `undefined` (here `none`, which
also stands for `NaN`) and `0` are falsy, every other number is truthy.  This is
the guard shape `location.latitude && location.longitude` used by
`location-details` and `interactive-map`. -/
def numTruthy : Option ℚ → Bool
  | none => false
  | some x => if x = 0 then false else true

/-- Value of a digit string (helper for the `parseFloat` model). -/
def digitsVal (cs : List Char) : Nat :=
  cs.foldl (fun n c => n * 10 + (c.toNat - '0'.toNat)) 0

/-- Model of the JS builtin `parseFloat`, restricted to plain decimal literals
(optionally signed, optional fractional part).  `none` models the `NaN` result
on a non-numeric string.  The prefix-salvaging behavior of the real builtin on
trailing garbage is not modeled; no claim depends on it. -/
def parseFloat? (s : String) : Option ℚ :=
  let cs := trimChars s.data
  let (neg, body) :=
    match cs with
    | '-' :: rest => (true, rest)
    | '+' :: rest => (false, rest)
    | _ => (false, cs)
  let mag : Option ℚ :=
    match splitOnChar '.' body with
    | [a] =>
      if a ≠ [] && a.all Char.isDigit then some (digitsVal a : ℚ)
      else none
    | [a, b] =>
      if (a ++ b) ≠ [] && a.all Char.isDigit && b.all Char.isDigit then
        some ((digitsVal a : ℚ) + (digitsVal b : ℚ) / ((10 : ℚ) ^ b.length))
      else none
    | _ => none
  match mag with
  | none => none
  | some m => some (if neg then -m else m)

/-- The normalized `Location` shape from `src/src/lib/types.ts`.  The TS
declaration types `latitude`/`longitude` as `number`, but every consumer guards
them with truthiness checks, and places genuinely reach the consumers with the
fields absent (e.g. from `parseFloat` returning `NaN`); they are therefore
modeled as `Option ℚ` with `none` for `undefined`/`NaN`.  The provider
metadata passthrough fields (`osm_id`, `osm_type`, `class`, `type`,
`importance`, `address`) are elided: no claim observes them. -/
structure Location where
  id : Option String
  name : String
  fullName : Option String
  latitude : Option ℚ
  longitude : Option ℚ
  country : Option String
deriving DecidableEq

/-- One entry of the Nominatim geocoding payload
(`NominatimGeocodingResult` in `types.ts`), restricted to the fields
`fetchLocations` reads.  `country` is the optional `item.address?.country`. -/
structure NominatimResult where
  place_id : Nat
  display_name : String
  lat : String
  lon : String
  country : Option String
deriving DecidableEq

/-- The mapping `fetchLocations` applies to each Nominatim item
(`location-search.tsx` lines 54–68):
`id = place_id.toString()`, `name = display_name.split(',')[0].trim()`,
`fullName = display_name`, coordinates via `parseFloat`,
`country = address?.country`. -/
def formatResult (item : NominatimResult) : Location :=
  { id := some (toString item.place_id)
    name := ⟨trimChars ((splitOnChar ',' item.display_name.data).headD [])⟩
    fullName := some item.display_name
    latitude := parseFloat? item.lat
    longitude := parseFloat? item.lon
    country := item.country }

/-- A toast notification emitted through `useToast` (`variant: 'destructive'`
is recorded in the `destructive` flag). -/
structure Toast where
  title : String
  description : String
  destructive : Bool
deriving DecidableEq

/-- The failure modes of a geocode fetch: network rejection, non-success HTTP
status (the code then throws
`new Error('Failed to fetch locations from Nominatim')`), or a payload that
fails to parse.  All three reach the single `catch` block of
`fetchLocations`. -/
inductive FetchFailure
  | network (msg : String)
  | httpStatus (status : Nat)
  | malformedPayload (msg : String)
deriving DecidableEq

/-- The `error.message` the `catch` block reads from each failure mode. -/
def FetchFailure.message : FetchFailure → String
  | network msg => msg
  | httpStatus _ => "Failed to fetch locations from Nominatim"
  | malformedPayload msg => msg

/-- The React state of the `LocationSearch` component: `searchTerm`, `results`,
`isLoading`, `showResults` (`location-search.tsx` lines 30–33). -/
structure SearchState where
  searchTerm : String
  results : List Location
  isLoading : Bool
  showResults : Bool
deriving DecidableEq

/-- Full state of one `LocationSearch` instance together with its environment
bookkeeping:

* `ui` — the React state;
* `pendingTimer` — the single `timeout` slot of the `debounce` closure, holding
  the argument the scheduled `fetchLocations` call will receive (the closure
  keeps exactly one timer: each new call clears the previous one);
* `inflight` — issued geocode requests whose responses have not yet resolved,
  tagged with an identifier so a trace can name which response arrives (the
  component itself keeps no such registry — responses are applied
  unconditionally);
* `nextReqId` — fresh tag supply;
* `issued` — log of every network request issued, in order (the query string);
* `toasts` — log of every toast emitted. -/
structure Machine where
  ui : SearchState
  pendingTimer : Option String
  inflight : List (Nat × String)
  nextReqId : Nat
  issued : List String
  toasts : List Toast
deriving DecidableEq

/-- Component state at mount: `useState(initialSearchTerm)`, empty results, not
loading, dropdown hidden, no timer, nothing issued. -/
def initMachine (initialSearchTerm : String) : Machine :=
  { ui := { searchTerm := initialSearchTerm, results := [], isLoading := false,
            showResults := false }
    pendingTimer := none
    inflight := []
    nextReqId := 0
    issued := []
    toasts := [] }

/-- `handleInputChange` (`location-search.tsx` lines 112–123):
`setSearchTerm(newSearchTerm)`; if the trimmed text is empty, clear results,
hide the dropdown and stop loading (the debounce timer is NOT touched);
otherwise set loading and call `debouncedFetchLocations(newSearchTerm)`, which
clears the previous timer and arms a new one with this text. -/
def handleInputChange (m : Machine) (text : String) : Machine :=
  let ui := { m.ui with searchTerm := text }
  if jsTrim text = "" then
    { m with ui := { ui with results := [], showResults := false, isLoading := false } }
  else
    { m with ui := { ui with isLoading := true }, pendingTimer := some text }

/-- The debounce timer firing: the scheduled `fetchLocations(query)` runs.  If
the query is blank after trimming it only clears results and hides the dropdown
(lines 39–43); otherwise it sets loading and issues the network request, which
becomes in-flight (lines 44–48). -/
def fireTimer (m : Machine) : Machine :=
  match m.pendingTimer with
  | none => m
  | some q =>
    let m1 := { m with pendingTimer := none }
    if jsTrim q = "" then
      { m1 with ui := { m1.ui with results := [], showResults := false } }
    else
      { m1 with ui := { m1.ui with isLoading := true }
                inflight := m1.inflight ++ [(m1.nextReqId, q)]
                nextReqId := m1.nextReqId + 1
                issued := m1.issued ++ [q] }

/-- The continuation of `fetchLocations` after the awaited fetch settles.  On
success (lines 52–70): `setResults(formattedResults)`, `setShowResults(true)`,
and `setIsLoading(false)` in the `finally`.  On any failure (lines 71–82): a
destructive `Search Error` toast with the failure message, `setResults([])`,
`setShowResults(false)`, `setIsLoading(false)`.  The `catch` absorbs every
failure: this function is total and has no error output channel, which is the
model of the failure not escaping the controller. -/
def applyFetchOutcome (out : Except FetchFailure (List NominatimResult))
    (ui : SearchState) : SearchState × List Toast :=
  match out with
  | Except.ok data =>
    ({ ui with results := data.map formatResult, showResults := true,
               isLoading := false }, [])
  | Except.error e =>
    ({ ui with results := [], showResults := false, isLoading := false },
     [{ title := "Search Error", description := e.message, destructive := true }])

/-- Resolution of the in-flight request tagged `reqId`.  The component applies
the response unconditionally — there is no sequence-number or staleness check
in the source — so the guard here only expresses that a response event can
occur solely for a request that was actually issued and is still pending. -/
def deliverResponse (m : Machine) (reqId : Nat)
    (out : Except FetchFailure (List NominatimResult)) : Machine :=
  if reqId ∈ m.inflight.map Prod.fst then
    { m with ui := (applyFetchOutcome out m.ui).1
             inflight := m.inflight.filter (fun p => p.1 != reqId)
             toasts := m.toasts ++ (applyFetchOutcome out m.ui).2 }
  else m

/-- `clearSearch` (`location-search.tsx` lines 132–138): empties the term,
results, loading flag and dropdown.  Neither the debounce timer nor any
in-flight request is cancelled. -/
def clearSearch (m : Machine) : Machine :=
  { m with ui := { searchTerm := "", results := [], isLoading := false,
                   showResults := false } }

/-- The `useEffect` synchronizing `searchTerm` with the `initialSearchTerm`
prop (lines 88–96): always `setSearchTerm(initialSearchTerm)`; when the prop is
falsy (the empty string) additionally clear results, hide the dropdown and
reset loading.  No fetch is performed and no timer is armed. -/
def syncInitialTerm (m : Machine) (initialSearchTerm : String) : Machine :=
  let ui := { m.ui with searchTerm := initialSearchTerm }
  if initialSearchTerm = "" then
    { m with ui := { ui with results := [], showResults := false, isLoading := false } }
  else
    { m with ui := ui }

/-- Events a `LocationSearch` instance can experience.  A trace is a list of
events; claims about debouncing and response races quantify over traces. -/
inductive Event
  | input (text : String)
  | clear
  | fire
  | response (reqId : Nat) (out : Except FetchFailure (List NominatimResult))
  | syncProp (text : String)

/-- One step of the controller state machine. -/
def step (m : Machine) : Event → Machine
  | Event.input t => handleInputChange m t
  | Event.clear => clearSearch m
  | Event.fire => fireTimer m
  | Event.response i out => deliverResponse m i out
  | Event.syncProp t => syncInitialTerm m t

/-- Run a trace of events. -/
def run (m : Machine) (es : List Event) : Machine := es.foldl step m

/-! ## Selection state (`src/src/app/page.tsx`) -/

/-- The `mapCenter` record of `HomePage` (longitude, latitude, zoom).  The
`key: Date.now()` cache-busting field is a real-time value and is elided; no
claim observes it. -/
structure MapCenter where
  longitude : Option ℚ
  latitude : Option ℚ
  zoom : Nat
deriving DecidableEq

/-- The `HomePage` state: the selected location, the map center, and the
`initialSearchDone` bootstrap guard. -/
structure HomeState where
  selectedLocation : Option Location
  mapCenter : MapCenter
  initialSearchDone : Bool
deriving DecidableEq

/-- `DEFAULT_LONGITUDE` constant of `page.tsx`. -/
def DEFAULT_LONGITUDE : ℚ := -0.1278
/-- `DEFAULT_LATITUDE` constant of `page.tsx`. -/
def DEFAULT_LATITUDE : ℚ := 51.5074
/-- `DEFAULT_LOCATION_NAME` constant of `page.tsx`. -/
def DEFAULT_LOCATION_NAME : String := "London"
/-- `DEFAULT_COUNTRY` constant of `page.tsx`. -/
def DEFAULT_COUNTRY : String := "United Kingdom"

/-- `HomePage` state at mount: no selection, map centered on the default
coordinates at zoom 9, bootstrap not yet done. -/
def initialHomeState : HomeState :=
  { selectedLocation := none
    mapCenter := { longitude := some DEFAULT_LONGITUDE,
                   latitude := some DEFAULT_LATITUDE, zoom := 9 }
    initialSearchDone := false }

/-- The `defaultLocation` value the bootstrap effect constructs
(`page.tsx` lines 74–80). -/
def defaultLocation : Location :=
  { id := none
    name := DEFAULT_LOCATION_NAME
    fullName := some (DEFAULT_LOCATION_NAME ++ ", " ++ DEFAULT_COUNTRY)
    latitude := some DEFAULT_LATITUDE
    longitude := some DEFAULT_LONGITUDE
    country := some DEFAULT_COUNTRY }

/-- `handleLocationSelect` (`page.tsx` lines 62–70): store the location and
recenter the map on its coordinates at zoom 13. -/
def handleLocationSelect (h : HomeState) (loc : Location) : HomeState :=
  { h with selectedLocation := some loc
           mapCenter := { longitude := loc.longitude, latitude := loc.latitude,
                          zoom := 13 } }

/-- One invocation of the bootstrap `useEffect` body (`page.tsx` lines 72–84):
if `initialSearchDone` is still false, select `defaultLocation` and set the
flag; otherwise do nothing. -/
def bootstrapStep (h : HomeState) : HomeState :=
  if h.initialSearchDone then h
  else { h with selectedLocation := some defaultLocation, initialSearchDone := true }

/-- `handleResultClick` (`location-search.tsx` lines 125–130):
`onLocationSelect(location)` (the selected location is returned as the second
component), then `setSearchTerm(location.fullName || location.name)`,
`setShowResults(false)`, `setResults([])`. -/
def handleResultClick (m : Machine) (loc : Location) : Machine × Location :=
  ({ m with ui := { m.ui with searchTerm := jsOrStr loc.fullName loc.name,
                              showResults := false, results := [] } },
   loc)

/-- Selecting a candidate end to end: `handleResultClick` on the controller,
whose `onLocationSelect` callback is `handleLocationSelect` of `HomePage`. -/
def selectCandidate (m : Machine) (h : HomeState) (loc : Location) :
    Machine × HomeState :=
  let r := handleResultClick m loc
  (r.1, handleLocationSelect h r.2)

/-! ## Detail panel (`LocationDetails`, `src/unnamed/part_005`) -/

/-- The OpenWeatherMap payload restricted to the fields the panel renders. -/
structure OWMResponse where
  description : String
  icon : String
  temp : ℚ
  feels_like : ℚ
  humidity : ℚ
  windSpeed : ℚ
deriving DecidableEq

/-- The React state of `LocationDetails`: `weather`, `isLoadingWeather`,
`weatherError`. -/
structure DetailState where
  weather : Option OWMResponse
  isLoadingWeather : Bool
  weatherError : Option String
deriving DecidableEq

/-- Whether the detail-panel effect starts a weather fetch, and for which
coordinates. -/
inductive WeatherCommand
  | noFetch
  | fetch (lat lon : ℚ)
deriving DecidableEq

/-- The weather `useEffect` body of `LocationDetails` (part_005 lines 25–65).
The guard is `location && location.longitude && location.latitude` — JS
truthiness, so `undefined`, `NaN` and `0` all fail it.  Inside the guard,
a falsy API key (`undefined` or empty, modeled as `apiKey.getD "" = ""`) sets
only the error message and returns without fetching; otherwise the effect
enters loading, clears the error, and issues the fetch.  When the guard fails,
weather, error and loading are all reset and no fetch is issued. -/
def locationDetailsEffect (location : Option Location) (apiKey : Option String)
    (st : DetailState) : DetailState × WeatherCommand :=
  match location with
  | some loc =>
    if numTruthy loc.longitude && numTruthy loc.latitude then
      if apiKey.getD "" = "" then
        ({ st with weatherError := some "OpenWeatherMap API key not configured." },
         WeatherCommand.noFetch)
      else
        ({ st with isLoadingWeather := true, weatherError := none },
         WeatherCommand.fetch (loc.latitude.getD 0) (loc.longitude.getD 0))
    else
      ({ weather := none, isLoadingWeather := false, weatherError := none },
       WeatherCommand.noFetch)
  | none =>
    ({ weather := none, isLoadingWeather := false, weatherError := none },
     WeatherCommand.noFetch)

/-- Render condition of the `Location Incomplete` alert (part_005 lines
193–201): `!isLoadingWeather && !weather && !weatherError &&
(!location.latitude || !location.longitude)`. -/
def incompleteAlertShown (loc : Location) (st : DetailState) : Bool :=
  !st.isLoadingWeather && st.weather.isNone && st.weatherError.isNone &&
    (!numTruthy loc.latitude || !numTruthy loc.longitude)

/-- The coordinate badge in the panel header (part_005 lines 109–116), guarded
by `location.latitude && location.longitude`.  Reading a coordinate that is
absent is modeled as an error, so that the theorem `detail panel never throws`
is about the guard actually protecting the reads. -/
def detailCoordBadge (loc : Location) : Except String (Option (ℚ × ℚ)) :=
  if numTruthy loc.latitude && numTruthy loc.longitude then
    match loc.latitude, loc.longitude with
    | some la, some lo => Except.ok (some (la, lo))
    | _, _ => Except.error "TypeError: coordinate missing"
  else Except.ok none

/-! ## Map view (`src/src/components/interactive-map.tsx`) -/

/-- `location?.latitude` through optional chaining. -/
def optLatitude (o : Option Location) : Option ℚ := o.bind Location.latitude
/-- `location?.longitude` through optional chaining. -/
def optLongitude (o : Option Location) : Option ℚ := o.bind Location.longitude

/-- The coordinates the map view uses (`interactive-map.tsx` lines 110–112):
`location?.latitude && location?.longitude ? [lat, lon] : initialCoordinates`.
As with the detail panel, dereferencing an absent coordinate is modeled as an
error to make `never throws` meaningful. -/
def mapViewCoordinates (location : Option Location)
    (initialCoordinates : ℚ × ℚ) : Except String (ℚ × ℚ) :=
  if numTruthy (optLatitude location) && numTruthy (optLongitude location) then
    match optLatitude location, optLongitude location with
    | some la, some lo => Except.ok (la, lo)
    | _, _ => Except.error "TypeError: coordinate missing"
  else Except.ok initialCoordinates

/-- Render condition of the map's `No Location Selected` overlay
(`interactive-map.tsx` lines 308–318): `!location && (...)`. -/
def noLocationOverlayShown (location : Option Location) : Bool :=
  location.isNone

/-! ## Concrete fixtures used by counterexamples and witnesses -/

/-- A Nominatim item standing for the top hit of the query `Lon`. -/
def itemA : NominatimResult :=
  { place_id := 101, display_name := "Lon Placeholder, Somewhere",
    lat := "1.5", lon := "2.5", country := none }

/-- A Nominatim item standing for the top hit of the query `London`. -/
def itemB : NominatimResult :=
  { place_id := 202,
    display_name := "London, Greater London, England, United Kingdom",
    lat := "51.5074", lon := "-0.1278", country := some "United Kingdom" }

/-- The race trace of claim C1: request A (`Lon`, tag 0) and request B
(`London`, tag 1) are both issued, B after A; B's response arrives first and
A's response arrives last. -/
def traceC1 : List Event :=
  [Event.input "Lon", Event.fire, Event.input "London", Event.fire,
   Event.response 1 (Except.ok [itemB]), Event.response 0 (Except.ok [itemA])]

/-- A controller with one geocode request (tag 0, query `Lon`) in flight. -/
def mFlight : Machine :=
  { ui := { searchTerm := "Lon", results := [], isLoading := true,
            showResults := false }
    pendingTimer := none
    inflight := [(0, "Lon")]
    nextReqId := 1
    issued := ["Lon"]
    toasts := [] }

/-- A selected place whose `fullName` is present but empty. -/
def locEmptyFullName : Location :=
  { id := none, name := "Paris", fullName := some "",
    latitude := some 1, longitude := some 2, country := none }

/-- A selected place with both coordinates missing. -/
def coordlessLoc : Location :=
  { id := some "x1", name := "Nowhere", fullName := none,
    latitude := none, longitude := none, country := none }

/-- A selected place whose latitude is present but exactly `0`. -/
def zeroLatLoc : Location :=
  { id := none, name := "Equator Point", fullName := none,
    latitude := some 0, longitude := some 5, country := none }

/-! ## Helper lemmas shared by the claim theorems -/

/-- Running a concatenated trace is running the pieces in order. -/
theorem run_append (m : Machine) (es fs : List Event) :
    run m (es ++ fs) = run (run m es) fs := by
  simp [run, List.foldl_append]

/-- `handleInputChange` never touches the request logs, the in-flight set, the
tag supply or the toast log, whatever the text. -/
theorem handleInputChange_frame (m : Machine) (t : String) :
    (handleInputChange m t).issued = m.issued ∧
    (handleInputChange m t).inflight = m.inflight ∧
    (handleInputChange m t).nextReqId = m.nextReqId ∧
    (handleInputChange m t).toasts = m.toasts := by
  unfold handleInputChange
  split <;> exact ⟨rfl, rfl, rfl, rfl⟩

/-- A run consisting only of input events issues no request and leaves the
in-flight set and tag supply unchanged. -/
theorem run_inputs_frame (ts : List String) (m : Machine) :
    (run m (ts.map Event.input)).issued = m.issued ∧
    (run m (ts.map Event.input)).inflight = m.inflight ∧
    (run m (ts.map Event.input)).nextReqId = m.nextReqId := by
  induction ts generalizing m with
  | nil => exact ⟨rfl, rfl, rfl⟩
  | cons t rest ih =>
    rcases ih (handleInputChange m t) with ⟨h1, h2, h3⟩
    rcases handleInputChange_frame m t with ⟨g1, g2, g3, _⟩
    exact ⟨h1.trans g1, h2.trans g2, h3.trans g3⟩

/-- After a run of input events ending in a non-blank text, the debounce timer
holds exactly that final text: every non-blank input replaces the single timer
slot. -/
theorem run_inputs_pendingTimer (m : Machine) (ts : List String) (tfin : String)
    (hfin : jsTrim tfin ≠ "") :
    (run m ((ts ++ [tfin]).map Event.input)).pendingTimer = some tfin := by
  rw [List.map_append, run_append]
  show (handleInputChange (run m (ts.map Event.input)) tfin).pendingTimer = some tfin
  unfold handleInputChange
  simp [hfin]

/-- When the timer fires holding a non-blank query, exactly that query is
issued as a network request and becomes in-flight. -/
theorem fireTimer_issues (M : Machine) (q : String) (hp : M.pendingTimer = some q)
    (hq : jsTrim q ≠ "") :
    (fireTimer M).issued = M.issued ++ [q] ∧
    (fireTimer M).inflight = M.inflight ++ [(M.nextReqId, q)] ∧
    (fireTimer M).ui.isLoading = true := by
  unfold fireTimer
  rw [hp]
  simp [hq]

/-- Resolution of any still-pending request with a successful payload sets the
results to the formatted payload and opens the dropdown — unconditionally,
because the component has no staleness guard. -/
theorem deliverResponse_ok (m : Machine) (reqId : Nat) (d : List NominatimResult)
    (h : reqId ∈ m.inflight.map Prod.fst) :
    (deliverResponse m reqId (Except.ok d)).ui.results = d.map formatResult ∧
    (deliverResponse m reqId (Except.ok d)).ui.showResults = true ∧
    (deliverResponse m reqId (Except.ok d)).ui.isLoading = false := by
  unfold deliverResponse
  rw [if_pos h]
  exact ⟨rfl, rfl, rfl⟩

/-! ## Claim C1 — overlapping requests, last-issued-wins -/

/-- Claim C1 is false of the code: in the trace where request A (`Lon`) and
request B (`London`) are both issued (B after A) and A's response arrives after
B's, the candidates list afterwards reflects A's response, not B's.  The code
has no sequence-number guard — responses are applied in arrival order. -/
theorem c1_counterexample :
    (run (initMachine "") traceC1).issued = ["Lon", "London"] ∧
    (run (initMachine "") traceC1).ui.results.map Location.name = ["Lon Placeholder"] ∧
    ([itemB].map formatResult).map Location.name = ["London"] ∧
    ("Lon Placeholder" : String) ≠ "London" := by
  refine ⟨by decide, by decide, by decide, by decide⟩

/-- Claim C1, amended: responses are applied in arrival order with no
staleness check — delivering the successful response of ANY still-pending
request (superseded or not) overwrites the candidates with that response's
formatted payload and opens the dropdown.  Hence after two overlapping
requests, the candidates reflect whichever response arrived last, which is the
superseded request A when A's response arrives after B's. -/
theorem c1_amended (m : Machine) (reqId : Nat) (d : List NominatimResult)
    (h : reqId ∈ m.inflight.map Prod.fst) :
    (deliverResponse m reqId (Except.ok d)).ui.results = d.map formatResult ∧
    (deliverResponse m reqId (Except.ok d)).ui.showResults = true := by
  exact ⟨(deliverResponse_ok m reqId d h).1, (deliverResponse_ok m reqId d h).2.1⟩

/-- Witness for `c1_amended` at a concrete machine with request 0 in flight. -/
theorem c1_amended_witness :
    (deliverResponse mFlight 0 (Except.ok [itemB])).ui.results = [itemB].map formatResult ∧
    (deliverResponse mFlight 0 (Except.ok [itemB])).ui.showResults = true :=
  c1_amended mFlight 0 [itemB] (by decide)

/-! ## Claim C2 — debounce coalesces rapid input into one request -/

/-- Claim C2 (confirmed): for a sequence of non-blank input changes that all
arrive inside the debounce window (no timer firing between them), followed by
the timer firing once, exactly one geocode request is issued, and it is for the
final text value.  Each input replaces the single timer slot, so only the last
text survives to the firing. -/
theorem c2_debounce_final_value (m : Machine) (ts : List String) (tfin : String)
    (hnb : ∀ t ∈ ts ++ [tfin], jsTrim t ≠ "") :
    (run m ((ts ++ [tfin]).map Event.input ++ [Event.fire])).issued
      = m.issued ++ [tfin] := by
  rw [run_append]
  have hfin : jsTrim tfin ≠ "" := hnb tfin (by simp)
  have hT := run_inputs_pendingTimer m ts tfin hfin
  have hI := (run_inputs_frame (ts ++ [tfin]) m).1
  show (fireTimer (run m ((ts ++ [tfin]).map Event.input))).issued = m.issued ++ [tfin]
  rw [(fireTimer_issues _ tfin hT hfin).1, hI]

/-- Witness for `c2_debounce_final_value`: typing `L` then `Lo` inside the
window and letting the timer fire issues exactly one request, for `Lo`. -/
theorem c2_witness :
    (run (initMachine "") ((["L"] ++ ["Lo"]).map Event.input ++ [Event.fire])).issued
      = ["Lo"] :=
  c2_debounce_final_value (initMachine "") ["L"] "Lo" (by decide)

/-! ## Claim C3 — clear during an in-flight request -/

/-- Claim C3 is false of the code: clearing while request 0 (`Lon`) is in
flight resets the state, but when that request later resolves successfully its
response is applied — the candidates are re-populated and the dropdown
re-opens.  `clearSearch` bumps no sequence number and cancels nothing. -/
theorem c3_counterexample :
    (run (initMachine "") [Event.input "Lon", Event.fire, Event.clear]).inflight
      = [(0, "Lon")] ∧
    (run (initMachine "") [Event.input "Lon", Event.fire, Event.clear]).ui
      = { searchTerm := "", results := [], isLoading := false, showResults := false } ∧
    (run (initMachine "") [Event.input "Lon", Event.fire, Event.clear,
        Event.response 0 (Except.ok [itemA])]).ui.results ≠ [] ∧
    (run (initMachine "") [Event.input "Lon", Event.fire, Event.clear,
        Event.response 0 (Except.ok [itemA])]).ui.showResults = true := by
  refine ⟨by decide, by decide, by decide, by decide⟩

/-- Claim C3, amended: `clear()` immediately empties the term, candidates,
loading flag and dropdown, and leaves in-flight requests untouched; but when an
in-flight request later resolves successfully, its response IS applied — the
candidates become its formatted payload and the dropdown re-opens, because no
staleness guard discards it. -/
theorem c3_amended (m : Machine) (reqId : Nat) (d : List NominatimResult)
    (h : reqId ∈ m.inflight.map Prod.fst) :
    (clearSearch m).ui
      = { searchTerm := "", results := [], isLoading := false, showResults := false } ∧
    (deliverResponse (clearSearch m) reqId (Except.ok d)).ui.results = d.map formatResult ∧
    (deliverResponse (clearSearch m) reqId (Except.ok d)).ui.showResults = true := by
  have h2 : reqId ∈ (clearSearch m).inflight.map Prod.fst := h
  exact ⟨rfl, (deliverResponse_ok _ reqId d h2).1, (deliverResponse_ok _ reqId d h2).2.1⟩

/-- Witness for `c3_amended` at a concrete machine with request 0 in flight. -/
theorem c3_amended_witness :
    (clearSearch mFlight).ui
      = { searchTerm := "", results := [], isLoading := false, showResults := false } ∧
    (deliverResponse (clearSearch mFlight) 0 (Except.ok [itemA])).ui.results
      = [itemA].map formatResult ∧
    (deliverResponse (clearSearch mFlight) 0 (Except.ok [itemA])).ui.showResults = true :=
  c3_amended mFlight 0 [itemA] (by decide)

/-! ## Claim C4 — selecting a candidate -/

/-- Claim C4 is false of the code at a candidate whose `fullName` is present
but empty: the spec's `fullLabel ?? label` would make the term the empty
string, but the code computes `location.fullName || location.name`, for which
the empty string is falsy, so the term becomes the label instead. -/
theorem c4_counterexample :
    locEmptyFullName.fullName = some "" ∧
    (selectCandidate (initMachine "") initialHomeState locEmptyFullName).1.ui.searchTerm
      = "Paris" ∧
    ("Paris" : String) ≠ "" := by
  refine ⟨rfl, by decide, by decide⟩

/-- Claim C4, amended: selecting a candidate sets the term to the candidate's
`fullName` when it is present AND non-empty, and to its `name` otherwise
(`||`, not `??`); simultaneously the candidates list is emptied, the dropdown
is hidden, and the selection state becomes exactly that candidate. -/
theorem c4_amended (m : Machine) (h : HomeState) (loc : Location) :
    (selectCandidate m h loc).1.ui.searchTerm
      = (match loc.fullName with
         | some s => if s = "" then loc.name else s
         | none => loc.name) ∧
    (selectCandidate m h loc).1.ui.results = [] ∧
    (selectCandidate m h loc).1.ui.showResults = false ∧
    (selectCandidate m h loc).2.selectedLocation = some loc := by
  refine ⟨?_, rfl, rfl, rfl⟩
  cases hf : loc.fullName with
  | none => simp [selectCandidate, handleResultClick, jsOrStr, hf]
  | some s => simp [selectCandidate, handleResultClick, jsOrStr, hf]

/-! ## Claim C5 — bootstrap of the default selection -/

/-- Claim C5 (confirmed): from the mount state the bootstrap step selects the
default place (label `London`, country `United Kingdom`, latitude `51.5074`,
longitude `-0.1278`) and sets the run-once flag; the step is idempotent, and
re-invoking it after any later selection is a no-op because the flag never
resets. -/
theorem c5_bootstrap (h : HomeState) (loc : Location) :
    (bootstrapStep initialHomeState).selectedLocation = some defaultLocation ∧
    (bootstrapStep initialHomeState).initialSearchDone = true ∧
    defaultLocation.name = "London" ∧
    defaultLocation.country = some "United Kingdom" ∧
    defaultLocation.latitude = some (51.5074 : ℚ) ∧
    defaultLocation.longitude = some (-0.1278 : ℚ) ∧
    bootstrapStep (bootstrapStep h) = bootstrapStep h ∧
    bootstrapStep (handleLocationSelect (bootstrapStep h) loc)
      = handleLocationSelect (bootstrapStep h) loc := by
  refine ⟨rfl, rfl, rfl, rfl, rfl, rfl, ?_, ?_⟩
  · cases hd : h.initialSearchDone <;> simp [bootstrapStep, hd]
  · cases hd : h.initialSearchDone <;> simp [bootstrapStep, handleLocationSelect, hd]

/-! ## Claim C6 — failure handling of the geocode fetch -/

/-- Claim C6 (confirmed): whatever the failure mode of an in-flight geocode
request (network rejection, non-success HTTP status, malformed payload), its
resolution empties the candidates, hides the dropdown, stops loading, and
emits exactly one destructive `Search Error` toast.  The handler is a total
function into states — the single `catch` absorbs every failure, so nothing
escapes the controller boundary. -/
theorem c6_failure_absorbed (m : Machine) (reqId : Nat) (f : FetchFailure)
    (h : reqId ∈ m.inflight.map Prod.fst) :
    (deliverResponse m reqId (Except.error f)).ui.results = [] ∧
    (deliverResponse m reqId (Except.error f)).ui.showResults = false ∧
    (deliverResponse m reqId (Except.error f)).ui.isLoading = false ∧
    (deliverResponse m reqId (Except.error f)).toasts
      = m.toasts ++ [{ title := "Search Error", description := f.message,
                       destructive := true }] := by
  unfold deliverResponse
  rw [if_pos h]
  exact ⟨rfl, rfl, rfl, rfl⟩

/-- Witness for `c6_failure_absorbed`: an HTTP 500 on the in-flight request. -/
theorem c6_witness :
    (deliverResponse mFlight 0 (Except.error (FetchFailure.httpStatus 500))).ui.results = [] ∧
    (deliverResponse mFlight 0 (Except.error (FetchFailure.httpStatus 500))).ui.showResults = false ∧
    (deliverResponse mFlight 0 (Except.error (FetchFailure.httpStatus 500))).ui.isLoading = false ∧
    (deliverResponse mFlight 0 (Except.error (FetchFailure.httpStatus 500))).toasts
      = [{ title := "Search Error",
           description := "Failed to fetch locations from Nominatim",
           destructive := true }] :=
  c6_failure_absorbed mFlight 0 (FetchFailure.httpStatus 500) (by decide)

/-! ## Claim C7 — blank input and the pending debounce timer -/

/-- Claim C7 is false of the code: after typing `Lon` (arming the timer) and
then clearing to a whitespace-only text inside the window, the timer is still
armed with `Lon`, and when it fires a network request for `Lon` is issued —
blank input does not cancel the previously scheduled request. -/
theorem c7_counterexample :
    jsTrim " " = "" ∧
    (run (initMachine "") [Event.input "Lon", Event.input " "]).pendingTimer
      = some "Lon" ∧
    (run (initMachine "") [Event.input "Lon", Event.input " ", Event.fire]).issued
      = ["Lon"] := by
  refine ⟨by decide, by decide, by decide⟩

/-- Claim C7, amended: blank (after trimming) input records the raw text as the
term, clears the candidates, hides the dropdown, stops the loading indicator
and schedules no new request — but it does NOT cancel a previously armed
debounce timer: a timer holding earlier non-blank text still fires and issues
its geocode request. -/
theorem c7_amended (m : Machine) (t q : String) (hb : jsTrim t = "")
    (hq : m.pendingTimer = some q) (hnbq : jsTrim q ≠ "") :
    handleInputChange m t
      = { m with ui := { searchTerm := t, results := [], isLoading := false,
                         showResults := false } } ∧
    (fireTimer (handleInputChange m t)).issued = m.issued ++ [q] := by
  have h1 : handleInputChange m t
      = { m with ui := { searchTerm := t, results := [], isLoading := false,
                         showResults := false } } := by
    unfold handleInputChange
    rw [if_pos hb]
  refine ⟨h1, ?_⟩
  rw [h1]
  exact (fireTimer_issues
    { m with ui := { searchTerm := t, results := [], isLoading := false,
                     showResults := false } } q hq hnbq).1

/-- Witness for `c7_amended`: type `Lon`, then whitespace; the timer still
issues `Lon`. -/
theorem c7_amended_witness :
    handleInputChange (run (initMachine "") [Event.input "Lon"]) " "
      = { run (initMachine "") [Event.input "Lon"] with
          ui := { searchTerm := " ", results := [], isLoading := false,
                  showResults := false } } ∧
    (fireTimer (handleInputChange (run (initMachine "") [Event.input "Lon"]) " ")).issued
      = (run (initMachine "") [Event.input "Lon"]).issued ++ ["Lon"] :=
  c7_amended (run (initMachine "") [Event.input "Lon"]) " " "Lon"
    (by decide) (by decide) (by decide)

/-! ## Claim C8 — prop re-synchronization issues no request -/

/-- Claim C8 (confirmed): the effect re-synchronizing the term with the
externally supplied `initialSearchTerm` sets the term to the new value and may
only additionally reset candidates, dropdown and loading; it arms no timer,
issues no network request, and leaves the in-flight set and the toast log
untouched. -/
theorem c8_sync_no_request (m : Machine) (t : String) :
    (syncInitialTerm m t).ui.searchTerm = t ∧
    (syncInitialTerm m t).pendingTimer = m.pendingTimer ∧
    (syncInitialTerm m t).inflight = m.inflight ∧
    (syncInitialTerm m t).issued = m.issued ∧
    (syncInitialTerm m t).nextReqId = m.nextReqId ∧
    (syncInitialTerm m t).toasts = m.toasts := by
  unfold syncInitialTerm
  split <;> exact ⟨rfl, rfl, rfl, rfl, rfl, rfl⟩

/-! ## Claim C9 — selected place lacking coordinates -/

/-- Claim C9 is false of the code in its Map View part: for a selected place
with both coordinates missing, the map's `No Location Selected` overlay is NOT
shown — the overlay renders only when no location is selected at all. -/
theorem c9_counterexample :
    coordlessLoc.latitude = none ∧
    coordlessLoc.longitude = none ∧
    noLocationOverlayShown (some coordlessLoc) = false := by
  exact ⟨rfl, rfl, rfl⟩

/-- Claim C9, amended: for a selected place lacking a latitude or a longitude,
no weather fetch is issued, the Detail Panel shows the incomplete-location
alert and its coordinate badge does not throw, and the Map View does not throw
— it falls back to its default initial coordinates; but the map's no-location
overlay is NOT shown, because it renders only when there is no selection at
all. -/
theorem c9_amended (loc : Location) (st : DetailState) (apiKey : Option String)
    (init : ℚ × ℚ) (hmiss : loc.latitude = none ∨ loc.longitude = none) :
    (locationDetailsEffect (some loc) apiKey st).2 = WeatherCommand.noFetch ∧
    (locationDetailsEffect (some loc) apiKey st).1
      = { weather := none, isLoadingWeather := false, weatherError := none } ∧
    incompleteAlertShown loc (locationDetailsEffect (some loc) apiKey st).1 = true ∧
    detailCoordBadge loc = Except.ok none ∧
    mapViewCoordinates (some loc) init = Except.ok init ∧
    noLocationOverlayShown (some loc) = false := by
  rcases hmiss with h | h <;>
    refine ⟨?_, ?_, ?_, ?_, ?_, rfl⟩ <;>
      simp [locationDetailsEffect, incompleteAlertShown, detailCoordBadge,
            mapViewCoordinates, optLatitude, optLongitude, numTruthy, h]

/-- Witness for `c9_amended` at the coordinate-less place. -/
theorem c9_amended_witness :
    (locationDetailsEffect (some coordlessLoc) (some "k") ⟨none, false, none⟩).2
      = WeatherCommand.noFetch ∧
    (locationDetailsEffect (some coordlessLoc) (some "k") ⟨none, false, none⟩).1
      = { weather := none, isLoadingWeather := false, weatherError := none } ∧
    incompleteAlertShown coordlessLoc
      (locationDetailsEffect (some coordlessLoc) (some "k") ⟨none, false, none⟩).1 = true ∧
    detailCoordBadge coordlessLoc = Except.ok none ∧
    mapViewCoordinates (some coordlessLoc) (0, 0) = Except.ok (0, 0) ∧
    noLocationOverlayShown (some coordlessLoc) = false :=
  c9_amended coordlessLoc ⟨none, false, none⟩ (some "k") (0, 0) (Or.inl rfl)

/-! ## Claim C10 — coordinate exactly zero is treated as missing -/

/-- Claim C10 (confirmed): the coordinate-presence guard of the Detail Panel
uses JS truthiness, so a present-but-zero latitude or longitude behaves exactly
like missing coordinates — the weather effect produces the same state and
issues no fetch, and the incomplete-location alert is shown. -/
theorem c10_zero_coordinate (loc : Location) (st : DetailState)
    (apiKey : Option String)
    (hz : loc.latitude = some 0 ∨ loc.longitude = some 0) :
    locationDetailsEffect (some loc) apiKey st
      = locationDetailsEffect
          (some { loc with latitude := none, longitude := none }) apiKey st ∧
    (locationDetailsEffect (some loc) apiKey st).2 = WeatherCommand.noFetch ∧
    incompleteAlertShown loc (locationDetailsEffect (some loc) apiKey st).1 = true := by
  rcases hz with h | h <;>
    refine ⟨?_, ?_, ?_⟩ <;>
      simp [locationDetailsEffect, incompleteAlertShown, numTruthy, h]

/-- Witness for `c10_zero_coordinate` at a place on the equator (latitude 0,
longitude 5). -/
theorem c10_witness :
    locationDetailsEffect (some zeroLatLoc) (some "k") ⟨none, false, none⟩
      = locationDetailsEffect
          (some { zeroLatLoc with latitude := none, longitude := none })
          (some "k") ⟨none, false, none⟩ ∧
    (locationDetailsEffect (some zeroLatLoc) (some "k") ⟨none, false, none⟩).2
      = WeatherCommand.noFetch ∧
    incompleteAlertShown zeroLatLoc
      (locationDetailsEffect (some zeroLatLoc) (some "k") ⟨none, false, none⟩).1 = true :=
  c10_zero_coordinate zeroLatLoc ⟨none, false, none⟩ (some "k") (Or.inl rfl)

end RoamFree
